import Mathlib

/-!
Verification development for the ceph-nagios monitoring plugin
(`src/cephnagios/check_ceph_health.py`, the current variant of the tool).

The Python program is shallowly embedded as executable Lean definitions:

* external effects are modelled as explicit inputs: the filesystem check
  `os.path.exists` becomes a function `fs : String → Bool`, and the spawned
  subprocess becomes a `ProcBehavior` record describing what the child
  process would do;
* Python library functions used by the program are modelled by executable
  Lean functions whose doc comments state the modelling choices
  (`json_loads` for `json.loads`, `pySplit` for `str.split()`,
  `splitUnderscore` for `str.split` with a separator, `subIn` for
  substring search via `str.find`);
* fallible or exception-raising Python code returns a `PyOutcome`, whose
  `exn` constructor carries the Python exception class name.

Definitions keep the source's snake_case names where they embed a source
function directly.
-/

/-- Nagios exit code `STATUS_OK = 0` from the source header. -/
def STATUS_OK : Nat := 0

/-- Nagios exit code `STATUS_WARNING = 1` from the source header. -/
def STATUS_WARNING : Nat := 1

/-- Nagios exit code `STATUS_ERROR = 2` from the source header. -/
def STATUS_ERROR : Nat := 2

/-- Nagios exit code `STATUS_UNKNOWN = 3` from the source header. -/
def STATUS_UNKNOWN : Nat := 3

/-- Outcome of a piece of Python code: either a value, or an uncaught
exception carrying the Python exception class name. -/
inductive PyOutcome (α : Type) where
  | ok (val : α)
  | exn (name : String)
deriving DecidableEq, Repr

/-- Does `needle` occur at the start of `hay`? (character-list level). -/
def leadMatch : List Char → List Char → Bool
  | [], _ => true
  | _ :: _, [] => false
  | a :: as, b :: bs => a == b && leadMatch as bs

/-- Does `needle` occur anywhere inside `hay`? Model of Python's
`hay.find(needle) != -1` substring test (character-list level). -/
def subIn (hay needle : List Char) : Bool :=
  match hay with
  | [] => leadMatch needle []
  | h :: t => leadMatch needle (h :: t) || subIn t needle

/-- String-level substring containment, the model of Python's
`hay.find(needle) != -1`. -/
def strContains (hay needle : String) : Bool :=
  subIn hay.data needle.data

/-- Model of Python's `s.split('_')`: split at every underscore, keeping
empty pieces, as Python does for a one-character separator. -/
def splitUnderscore : List Char → List (List Char)
  | [] => [[]]
  | c :: cs =>
    let r := splitUnderscore cs
    if c == '_' then [] :: r
    else
      match r with
      | [] => [[c]]
      | w :: ws => (c :: w) :: ws

/-- Accumulator loop for `pySplit`; `acc` holds the current word reversed. -/
def wsSplitAux : List Char → List Char → List (List Char)
  | acc, [] => if acc.isEmpty then [] else [acc.reverse]
  | acc, c :: cs =>
    if c.isWhitespace then
      if acc.isEmpty then wsSplitAux [] cs else acc.reverse :: wsSplitAux [] cs
    else wsSplitAux (c :: acc) cs

/-- Model of Python's `s.split()` with no separator: split on runs of
whitespace, discarding empty pieces. -/
def pySplit (s : String) : List String :=
  (wsSplitAux [] s.data).map String.mk

/-- JSON values as produced by Python's `json.loads` (restricted model:
numbers are integers; see `json_loads`). -/
inductive PyJson where
  | null
  | bool (b : Bool)
  | num (n : Int)
  | str (s : String)
  | arr (elems : List PyJson)
  | obj (fields : List (String × PyJson))

/-- Python truthiness of a JSON value, modelling `if healthstatus:` on the
value read from the parsed document. -/
def PyJson.truthy : PyJson → Bool
  | .null => false
  | .bool b => b
  | .num n => n != 0
  | .str s => s != ""
  | .arr elems => !elems.isEmpty
  | .obj fields => !fields.isEmpty

/-- Model of Python subscription `j[k]` on a decoded JSON value: a lookup
on a JSON object (raising `KeyError` when the key is absent), and a
`TypeError` when the value is not an object. -/
def pyIndex (j : PyJson) (k : String) : PyOutcome PyJson :=
  match j with
  | .obj fields =>
    match fields.lookup k with
    | some v => .ok v
    | none => .exn "KeyError"
  | _ => .exn "TypeError"

/-- Skip JSON whitespace (space, tab, newline, carriage return), as
Python's json decoder does between tokens. -/
def skipWs : List Char → List Char
  | [] => []
  | c :: cs =>
    if c == ' ' || c == '\t' || c == '\n' || c == '\r' then skipWs cs
    else c :: cs

/-- Parse the body of a JSON string after the opening quote, handling the
single-character escapes; returns the decoded characters and the input
after the closing quote.  Restriction of the model: no `\u` escapes. -/
def parseStringBody : Nat → List Char → Option (List Char × List Char)
  | 0, _ => none
  | _ + 1, [] => none
  | fuel + 1, c :: cs =>
    if c == '"' then some ([], cs)
    else if c == '\\' then
      match cs with
      | [] => none
      | e :: cs2 =>
        let esc : Option Char :=
          if e == '"' then some '"'
          else if e == '\\' then some '\\'
          else if e == '/' then some '/'
          else if e == 'n' then some '\n'
          else if e == 't' then some '\t'
          else if e == 'r' then some '\r'
          else if e == 'b' then some (Char.ofNat 8)
          else if e == 'f' then some (Char.ofNat 12)
          else none
        match esc with
        | some ch =>
          match parseStringBody fuel cs2 with
          | some (rest, rem) => some (ch :: rest, rem)
          | none => none
        | none => none
    else if c.toNat < 32 then none
    else
      match parseStringBody fuel cs with
      | some (rest, rem) => some (c :: rest, rem)
      | none => none

/-- Read a run of decimal digits, accumulating their value. -/
def digitsAux : List Char → Nat → Nat × List Char
  | [], acc => (acc, [])
  | c :: cs, acc =>
    if c.isDigit then digitsAux cs (acc * 10 + (c.toNat - 48)) else (acc, c :: cs)

mutual

/-- Parse one JSON value; `fuel` bounds the recursion depth. -/
def parseVal : Nat → List Char → Option (PyJson × List Char)
  | 0, _ => none
  | fuel + 1, input =>
    match skipWs input with
    | [] => none
    | c :: cs =>
      if c == '\x7b' then
        match skipWs cs with
        | '\x7d' :: rest => some (.obj [], rest)
        | _ =>
          match parseMembers fuel cs with
          | some (fields, rest) => some (.obj fields, rest)
          | none => none
      else if c == '[' then
        match skipWs cs with
        | ']' :: rest => some (.arr [], rest)
        | _ =>
          match parseElems fuel cs with
          | some (elems, rest) => some (.arr elems, rest)
          | none => none
      else if c == '"' then
        match parseStringBody (cs.length + 1) cs with
        | some (body, rest) => some (.str (String.mk body), rest)
        | none => none
      else if c == 't' then
        match cs with
        | 'r' :: 'u' :: 'e' :: rest => some (.bool true, rest)
        | _ => none
      else if c == 'f' then
        match cs with
        | 'a' :: 'l' :: 's' :: 'e' :: rest => some (.bool false, rest)
        | _ => none
      else if c == 'n' then
        match cs with
        | 'u' :: 'l' :: 'l' :: rest => some (.null, rest)
        | _ => none
      else if c == '-' then
        match cs with
        | d :: ds =>
          if d.isDigit then
            let (v, rest) := digitsAux ds (d.toNat - 48)
            match rest with
            | r :: _ => if r == '.' || r == 'e' || r == 'E' then none else some (.num (-(v : Int)), rest)
            | [] => some (.num (-(v : Int)), [])
          else none
        | [] => none
      else if c.isDigit then
        let (v, rest) := digitsAux cs (c.toNat - 48)
        match rest with
        | r :: _ => if r == '.' || r == 'e' || r == 'E' then none else some (.num (v : Int), rest)
        | [] => some (.num (v : Int), [])
      else none

/-- Parse the members of a JSON object after its opening brace (at least
one member; the empty object is handled in `parseVal`). -/
def parseMembers : Nat → List Char → Option (List (String × PyJson) × List Char)
  | 0, _ => none
  | fuel + 1, input =>
    match skipWs input with
    | [] => none
    | c :: cs =>
      if c == '"' then
        match parseStringBody (cs.length + 1) cs with
        | some (key, r1) =>
          match skipWs r1 with
          | ':' :: r2 =>
            match parseVal fuel r2 with
            | some (v, r3) =>
              match skipWs r3 with
              | ',' :: r4 =>
                match parseMembers fuel r4 with
                | some (fields, r5) => some ((String.mk key, v) :: fields, r5)
                | none => none
              | '\x7d' :: r4 => some ([(String.mk key, v)], r4)
              | _ => none
            | none => none
          | _ => none
        | none => none
      else none

/-- Parse the elements of a JSON array after its opening bracket (at least
one element; the empty array is handled in `parseVal`). -/
def parseElems : Nat → List Char → Option (List PyJson × List Char)
  | 0, _ => none
  | fuel + 1, input =>
    match parseVal fuel input with
    | some (v, r1) =>
      match skipWs r1 with
      | ',' :: r2 =>
        match parseElems fuel r2 with
        | some (elems, r3) => some (v :: elems, r3)
        | none => none
      | ']' :: r2 => some ([v], r2)
      | _ => none
    | none => none

end

/-- Model of Python's `json.loads` (external library): parse a complete
JSON document, failing (like `ValueError`) when the input is not valid
JSON.  Restrictions of the model: numbers must be integers written without
fraction or exponent, and strings may not use `\u` escapes; the claims
below only exercise documents inside this subset, or quantify over the
parse outcome. -/
def json_loads (s : String) : Option PyJson :=
  match parseVal (s.data.length + 2) s.data with
  | some (j, rest) => if (skipWs rest).isEmpty then some j else none
  | none => none

/-- Embedding of the body of the `if healthstatus:` block of
`compose_nagios_output` (source lines 390-402): Python truthiness test on
the field, the two-element unpacking `_, health = healthstatus.split('_')`
(raising `ValueError` unless the split yields exactly two pieces, and
`AttributeError` when the value is not a string), and the suffix-to-code
mapping with `STATUS_OK` as the default. -/
def interpretHealthField (healthstatus : PyJson) : PyOutcome (String × Nat) :=
  if healthstatus.truthy then
    match healthstatus with
    | .str s =>
      match splitUnderscore s.data with
      | [_pre, healthChars] =>
        let health := String.mk healthChars
        .ok (s, if health == "WARNING" then STATUS_WARNING
          else if health == "ERROR" then STATUS_ERROR
          else if health == "UNKNOWN" then STATUS_UNKNOWN
          else STATUS_OK)
      | _ => .exn "ValueError"
    | _ => .exn "AttributeError"
  else .ok ("No mons found", STATUS_ERROR)

/-- Embedding of the `monid is not None` branch of `compose_nagios_output`
(source lines 379-402): `json.loads` with its `ValueError` handler testing
for the `ObjectNotFound` marker, then `jsondata['health']['status']` and
`interpretHealthField`. -/
def interpretPingOutput (output : String) (monid : String) : PyOutcome (String × Nat) :=
  match json_loads output with
  | none =>
    if strContains output "ObjectNotFound" then
      .ok (monid ++ " is not a valid ceph mon", STATUS_ERROR)
    else
      .ok ("Unknown error", STATUS_UNKNOWN)
  | some jsondata =>
    match pyIndex jsondata "health" with
    | .exn e => .exn e
    | .ok h =>
      match pyIndex h "status" with
      | .exn e => .exn e
      | .ok healthstatus => interpretHealthField healthstatus

/-- Embedding of `compose_nagios_output` (source lines 371-416). `output`
is the captured command output and `monid` is
`getattr(cliargs, 'monid', None)`: `some` only when the invocation carried
a `--monhealth` argument value. -/
def compose_nagios_output (output : String) (monid : Option String) : PyOutcome (String × Nat) :=
  match monid with
  | some m => interpretPingOutput output m
  | none =>
    if strContains output "HEALTH_OK" then .ok (output, STATUS_OK)
    else if strContains output "HEALTH_WARN" then .ok (output, STATUS_WARNING)
    else if strContains output "HEALTH_ERR" then .ok (output, STATUS_ERROR)
    else .ok ("OK: " ++ output, STATUS_OK)

/-- The global command line arguments read by `CephCommandBase.__init__`
(source lines 47-53).  In the current parser `exe` and `conf` have
compiled-in defaults and the rest default to `None`; the `Option` types
mirror the `is not None` tests in `build_base_command`. -/
structure BaseArgs where
  exe : String
  conf : Option String
  monaddress : Option String
  clientid : Option String
  name : Option String
  keyring : Option String
deriving DecidableEq, Repr

/-- The flag segments appended by `build_base_command` after the config
file segment (source lines 132-139), in source order: `-m`, `--id`,
`--name`, `--keyring`, each built with `'flag {0}'.format(value).split()`. -/
def afterConf (basecmd : List String) (a : BaseArgs) : List String :=
  let cmd1 := match a.monaddress with
    | some m => basecmd ++ pySplit ("-m " ++ m)
    | none => basecmd
  let cmd2 := match a.clientid with
    | some i => cmd1 ++ pySplit ("--id " ++ i)
    | none => cmd1
  let cmd3 := match a.name with
    | some n => cmd2 ++ pySplit ("--name " ++ n)
    | none => cmd2
  match a.keyring with
  | some k => cmd3 ++ pySplit ("--keyring " ++ k)
  | none => cmd3

/-- Result of `CephCommandBase.build_base_command`: either the command
list, or the Python literal `False` together with the
`self._nagiosmessage` set just before returning it (source lines
127-130). -/
inductive BaseCmdResult where
  | ok (cmd : List String)
  | falseRet (nagiosmessage : String)
deriving DecidableEq, Repr

/-- Embedding of `CephCommandBase.build_base_command` (source lines
120-140).  `fs` models `os.path.exists`. -/
def build_base_command (a : BaseArgs) (fs : String → Bool) : BaseCmdResult :=
  match a.conf with
  | some conf =>
    if fs conf then .ok (afterConf ([a.exe] ++ pySplit ("-c " ++ conf)) a)
    else .falseRet ("ERROR: No such file - " ++ conf)
  | none => .ok (afterConf [a.exe] a)

/-- Embedding of `CommonCephCommand.build_common_command` (source lines
203-218): checks the `False` return of the base builder, then appends the
subcommand chosen by the `status`/`health`/`quorum` flags with `df` as the
final `else`. -/
def build_common_command (a : BaseArgs) (status health quorum df : Bool)
    (fs : String → Bool) : BaseCmdResult :=
  match build_base_command a fs with
  | .falseRet m => .falseRet m
  | .ok cmd =>
    .ok (cmd ++ [if status then "status"
      else if health then "health"
      else if quorum then "quorum_status"
      else "df"])

/-- Python truthiness of `self.monhealth`, an optional string: `None` and
the empty string are falsy. -/
def pyTruthyOptStr : Option String → Bool
  | none => false
  | some s => s != ""

/-- Result of the mon/osd/mds builders, which do not check the `False`
return of `build_base_command`: the command list, the untouched `False`
passed through (mon only, when no flag is selected), or an
`AttributeError` from calling `extend`/`append` on the boolean `False`. -/
inductive SubBuildResult where
  | cmd (l : List String)
  | falseRet (nagiosmessage : String)
  | attrError
deriving DecidableEq, Repr

/-- Embedding of `MonCephCommand.build_mon_command` (source lines
254-265): no `False` check; the first `extend`/`append` on a `False` base
raises `AttributeError`, and with no selection flag the `False` is
returned unchanged. -/
def build_mon_command (a : BaseArgs) (monid : Option String)
    (monstatus monstat : Bool) (fs : String → Bool) : SubBuildResult :=
  match build_base_command a fs with
  | .ok cmd =>
    if pyTruthyOptStr monid then
      .cmd (cmd ++ pySplit ("ping mon." ++ monid.getD ""))
    else if monstatus then .cmd (cmd ++ ["mon_status"])
    else if monstat then .cmd (cmd ++ pySplit "mon stat")
    else .cmd cmd
  | .falseRet m =>
    if pyTruthyOptStr monid || monstatus || monstat then .attrError
    else .falseRet m

/-- Embedding of `OsdCephCommand.build_osd_command` (source lines
292-302): `cmd.append('osd')` runs unconditionally, so a `False` base
always raises `AttributeError`. -/
def build_osd_command (a : BaseArgs) (stat tree : Bool)
    (fs : String → Bool) : SubBuildResult :=
  match build_base_command a fs with
  | .ok cmd => .cmd ((cmd ++ ["osd"]) ++ [if stat then "stat" else "tree"])
  | .falseRet _ => .attrError

/-- Embedding of `MdsCephCommand.build_mds_command` (source lines
321-327): `cmd.extend('mds stat'.split())` runs unconditionally, so a
`False` base always raises `AttributeError`. -/
def build_mds_command (a : BaseArgs) (fs : String → Bool) : SubBuildResult :=
  match build_base_command a fs with
  | .ok cmd => .cmd (cmd ++ pySplit "mds stat")
  | .falseRet _ => .attrError

/-- Observable behaviour of the external `ceph` process for one
invocation: whether it can be spawned at all (`OSError` otherwise), its
exit status, and the text it writes to each stream. -/
structure ProcBehavior where
  spawnOk : Bool
  exitcode : Nat
  stdout : String
  stderr : String
deriving DecidableEq, Repr

/-- The text captured by `subprocess.run(..., stdout=PIPE,
stderr=STDOUT)`: the child's stderr is redirected into the same pipe as
its stdout, so the program only ever sees the combination.  The model
fixes the interleaving as stdout followed by stderr; the claims below only
use behaviours where at least one stream is empty, for which every
interleaving gives this value. -/
def combinedOutput (p : ProcBehavior) : String :=
  p.stdout ++ p.stderr

/-- Single-quote character, for rendering Python's `str(list)`. -/
def squote : String := String.singleton (Char.ofNat 39)

/-- Rendering of Python's `'{0}'.format(command)` for a list of strings,
as printed by the `CalledProcessError` handler. -/
def pyListRepr (l : List String) : String :=
  "[" ++ String.intercalate ", " (l.map (fun s => squote ++ s ++ squote)) ++ "]"

/-- Result of `CephCommandBase.run_ceph_command`: either `sys.exit` was
called inside the handler (with the printed text and the exit status), or
the decoded captured output is returned. -/
inductive RunResult where
  | exited (msg : String) (code : Nat)
  | out (s : String)
deriving DecidableEq, Repr

/-- Embedding of `CephCommandBase.run_ceph_command` (source lines
142-158): `OSError` reports the missing executable and exits 2;
`CalledProcessError` (non-zero exit status, because of `check=True`)
prints the captured output and the command and exits 2; otherwise the
captured output is returned. -/
def run_ceph_command (exe : String) (command : List String) (p : ProcBehavior) : RunResult :=
  if !p.spawnOk then
    .exited ("ERROR: Ceph executable not found - " ++ exe) STATUS_ERROR
  else if p.exitcode != 0 then
    .exited ("ERROR running ceph command: " ++ combinedOutput p ++ "\n" ++
      "Ceph command: " ++ pyListRepr command) STATUS_ERROR
  else .out (combinedOutput p)

/-- Observable outcome of one `main` invocation: the usage help was
printed (with the returned status), a message was printed and a status
returned, or an uncaught Python exception escaped `main`. -/
inductive MainOutcome where
  | help (code : Nat)
  | result (msg : String) (code : Nat)
  | exn (name : String)
deriving DecidableEq, Repr

/-- Embedding of the tail of `main` (source lines 452-456): run the
command, and when the captured output is truthy compose and print the
nagios message; when it is empty the `return nagioscode` reads a local
that was never assigned, raising `UnboundLocalError`. -/
def runPhase (exe : String) (cmd : List String) (p : ProcBehavior)
    (monid : Option String) : MainOutcome :=
  match run_ceph_command exe cmd p with
  | .exited msg code => .result msg code
  | .out s =>
    if s == "" then .exn "UnboundLocalError"
    else
      match compose_nagios_output s monid with
      | .exn e => .exn e
      | .ok (msg, code) => .result msg code

/-- The parsed argument namespace, by subject group.  `main` dispatches on
`hasattr(arguments, ...)`, so the shape of the namespace (which subparser
ran, if any) is what matters; `nogroup` is a namespace with none of the
group attributes (no subcommand given on a non-empty command line). -/
inductive ParsedArgs where
  | common (base : BaseArgs) (status health quorum df : Bool)
  | mon (base : BaseArgs) (monid : Option String) (monstatus monstat : Bool)
  | osd (base : BaseArgs) (stat tree : Bool)
  | mds (base : BaseArgs) (mdsstat : Bool)
  | nogroup
deriving DecidableEq, Repr

/-- Embedding of `main` (source lines 419-456) after command line
parsing.  `argv` is `sys.argv[1:]` (only its emptiness is consulted, for
the help-and-exit path); `parsed` is the namespace produced by
`parser.parse_args()` (the external `argparse` library); `fs` models
`os.path.exists`; `p` the external process. -/
def main_model (argv : List String) (parsed : ParsedArgs)
    (fs : String → Bool) (p : ProcBehavior) : MainOutcome :=
  if argv.isEmpty then .help STATUS_ERROR
  else
    match parsed with
    | .nogroup => .result "No valid command found" STATUS_ERROR
    | .common base status health quorum df =>
      match build_common_command base status health quorum df fs with
      | .falseRet m => .result m STATUS_ERROR
      | .ok cmd => runPhase base.exe cmd p none
    | .mon base monid monstatus monstat =>
      match build_mon_command base monid monstatus monstat fs with
      | .attrError => .exn "AttributeError"
      | .falseRet m => .result m STATUS_ERROR
      | .cmd cmd => runPhase base.exe cmd p monid
    | .osd base stat tree =>
      match build_osd_command base stat tree fs with
      | .attrError => .exn "AttributeError"
      | .falseRet m => .result m STATUS_ERROR
      | .cmd cmd => runPhase base.exe cmd p none
    | .mds base mdsstat =>
      match build_mds_command base fs with
      | .attrError => .exn "AttributeError"
      | .falseRet m => .result m STATUS_ERROR
      | .cmd cmd => runPhase base.exe cmd p none

/-- The check-selection flags of the `common` subparser's mutually
exclusive group (source lines 347-351). -/
inductive CommonFlag where
  | status | health | quorum | df
deriving DecidableEq, Repr

/-- The check-selection flags of the `mon` subparser's mutually exclusive
group (source lines 354-357). -/
inductive MonFlag where
  | monhealth | monstatus | monstat
deriving DecidableEq, Repr

/-- The check-selection flags of the `osd` subparser's mutually exclusive
group (source lines 360-362). -/
inductive OsdFlag where
  | stat | tree
deriving DecidableEq, Repr

/-- The check-selection flag of the `mds` subparser's mutually exclusive
group (source line 366). -/
inductive MdsFlag where
  | mdsstat
deriving DecidableEq, Repr

/-- The four subject groups registered as subparsers (source lines
344-366). -/
inductive SubjectGroup where
  | common | mon | osd | mds
deriving DecidableEq, Repr

/-- The type of check-selection flags belonging to each subject group. -/
def GroupFlag : SubjectGroup → Type
  | .common => CommonFlag
  | .mon => MonFlag
  | .osd => OsdFlag
  | .mds => MdsFlag

instance (g : SubjectGroup) : DecidableEq (GroupFlag g) :=
  match g with
  | .common => inferInstanceAs (DecidableEq CommonFlag)
  | .mon => inferInstanceAs (DecidableEq MonFlag)
  | .osd => inferInstanceAs (DecidableEq OsdFlag)
  | .mds => inferInstanceAs (DecidableEq MdsFlag)

/-- Model of `argparse`'s mutually-exclusive-group parsing (external
library): the flags of one group are consumed left to right while the
group remembers which of its actions has already been seen; encountering a
different action of the same group is a usage error (`parser.error`, which
prints a usage message and exits 2 before `main` continues, so no
subprocess is spawned). -/
def parseExGroup {α : Type} [DecidableEq α] : Option α → List α → Except String (Option α)
  | seen, [] => .ok seen
  | seen, f :: fs =>
    match seen with
    | none => parseExGroup (some f) fs
    | some g => if f = g then parseExGroup (some g) fs
      else .error "usage error: mutually exclusive arguments"

/-- A well-formed command line token: non-empty and free of whitespace, so
that Python's whitespace `split()` keeps it intact. -/
def goodTok (s : String) : Prop :=
  s.data ≠ [] ∧ ∀ c ∈ s.data, c.isWhitespace = false

instance (s : String) : Decidable (goodTok s) := by
  unfold goodTok; infer_instance

/-- The pair a well-formed flag value contributes to the command vector. -/
def optPair (flag : String) : Option String → List String
  | some v => [flag, v]
  | none => []

theorem leadMatch_refl (l : List Char) : leadMatch l l = true := by
  induction l with
  | nil => rfl
  | cons c cs ih => simp [leadMatch, ih]

theorem subIn_self (l : List Char) : subIn l l = true := by
  cases l with
  | nil => rfl
  | cons c cs => simp [subIn, leadMatch_refl]

theorem subIn_append_right (a b : List Char) : subIn (a ++ b) b = true := by
  induction a with
  | nil => simpa using subIn_self b
  | cons c a' ih => simp [subIn, ih]

theorem strData_append (s t : String) : (s ++ t).data = s.data ++ t.data := by
  cases s; cases t; rfl

theorem strContains_self (s : String) : strContains s s = true :=
  subIn_self s.data

theorem strContains_append_right (p s : String) : strContains (p ++ s) s = true := by
  unfold strContains
  rw [strData_append]
  exact subIn_append_right p.data s.data

/-- C2: For every non-ping invocation, the captured output string is
scanned by substring containment for the three literal markers in the
fixed priority order HEALTH_OK → OK, HEALTH_WARN → WARNING, HEALTH_ERR →
CRITICAL, first match winning regardless of position, with the message
containing the captured output; if none of the markers occurs the result
is OK with message "OK: <output>". -/
theorem c2_marker_scan (output : String) :
    (strContains output "HEALTH_OK" = true →
      compose_nagios_output output none = .ok (output, STATUS_OK)) ∧
    (strContains output "HEALTH_OK" = false → strContains output "HEALTH_WARN" = true →
      compose_nagios_output output none = .ok (output, STATUS_WARNING)) ∧
    (strContains output "HEALTH_OK" = false → strContains output "HEALTH_WARN" = false →
      strContains output "HEALTH_ERR" = true →
      compose_nagios_output output none = .ok (output, STATUS_ERROR)) ∧
    (strContains output "HEALTH_OK" = false → strContains output "HEALTH_WARN" = false →
      strContains output "HEALTH_ERR" = false →
      compose_nagios_output output none = .ok ("OK: " ++ output, STATUS_OK)) ∧
    (∀ msg code, compose_nagios_output output none = .ok (msg, code) →
      strContains msg output = true) := by
  refine ⟨fun h1 => by simp [compose_nagios_output, h1],
    fun h1 h2 => by simp [compose_nagios_output, h1, h2],
    fun h1 h2 h3 => by simp [compose_nagios_output, h1, h2, h3],
    fun h1 h2 h3 => by simp [compose_nagios_output, h1, h2, h3],
    fun msg code h => ?_⟩
  by_cases h1 : strContains output "HEALTH_OK" = true
  · simp [compose_nagios_output, h1] at h
    rw [← h.1]
    exact strContains_self output
  · rw [Bool.not_eq_true] at h1
    by_cases h2 : strContains output "HEALTH_WARN" = true
    · simp [compose_nagios_output, h1, h2] at h
      rw [← h.1]
      exact strContains_self output
    · rw [Bool.not_eq_true] at h2
      by_cases h3 : strContains output "HEALTH_ERR" = true
      · simp [compose_nagios_output, h1, h2, h3] at h
        rw [← h.1]
        exact strContains_self output
      · rw [Bool.not_eq_true] at h3
        simp [compose_nagios_output, h1, h2, h3] at h
        rw [← h.1]
        exact strContains_append_right "OK: " output

/-- Witness for C2 at the spec's Scenario B input. -/
theorem c2_marker_scan_witness :
    compose_nagios_output "HEALTH_WARN too many PGs" none =
      .ok ("HEALTH_WARN too many PGs", STATUS_WARNING) :=
  (c2_marker_scan "HEALTH_WARN too many PGs").2.1 (by rfl) (by rfl)

/-- C1 (code bug): for the monitor-ping stdout
`{"health":{"status":"HEALTH_WARN"}}` the code returns result code
`STATUS_OK`, not the `STATUS_WARNING` the spec's Scenario E requires: the
underscore-delimited suffix of `HEALTH_WARN` is `WARN`, which matches none
of the literals `WARNING`/`ERROR`/`UNKNOWN` compared against, so the
default `STATUS_OK` survives. -/
theorem c1_monping_health_warn_maps_to_ok :
    compose_nagios_output "\x7b\"health\":\x7b\"status\":\"HEALTH_WARN\"\x7d\x7d" (some "mymon") =
      .ok ("HEALTH_WARN", STATUS_OK) ∧ STATUS_OK ≠ STATUS_WARNING :=
  ⟨by rfl, by decide⟩

/-- C6: for a monitor-ping invocation whose stdout fails to parse as JSON,
the result is CRITICAL "<id> is not a valid ceph mon" when the raw text
contains `ObjectNotFound` and UNKNOWN "Unknown error" otherwise; when
parsing succeeds but the nested health-status field is the empty string,
the result is CRITICAL "No mons found". -/
theorem c6_monping_failure_modes (output : String) (monid : String) :
    (json_loads output = none → strContains output "ObjectNotFound" = true →
      compose_nagios_output output (some monid) =
        .ok (monid ++ " is not a valid ceph mon", STATUS_ERROR)) ∧
    (json_loads output = none → strContains output "ObjectNotFound" = false →
      compose_nagios_output output (some monid) = .ok ("Unknown error", STATUS_UNKNOWN)) ∧
    (∀ j h, json_loads output = some j → pyIndex j "health" = .ok h →
      pyIndex h "status" = .ok (.str "") →
      compose_nagios_output output (some monid) = .ok ("No mons found", STATUS_ERROR)) := by
  refine ⟨fun hp hf => ?_, fun hp hf => ?_, fun j h hp hh hs => ?_⟩
  · simp [compose_nagios_output, interpretPingOutput, hp, hf]
  · simp [compose_nagios_output, interpretPingOutput, hp, hf]
  · simp [compose_nagios_output, interpretPingOutput, hp, hh, hs,
      interpretHealthField, PyJson.truthy]

/-- Witness for C6: all three branches at concrete inputs. -/
theorem c6_monping_failure_modes_witness :
    compose_nagios_output "ObjectNotFound: mon.x" (some "a") =
      .ok ("a is not a valid ceph mon", STATUS_ERROR) ∧
    compose_nagios_output "garbage" (some "a") = .ok ("Unknown error", STATUS_UNKNOWN) ∧
    compose_nagios_output "\x7b\"health\":\x7b\"status\":\"\"\x7d\x7d" (some "a") =
      .ok ("No mons found", STATUS_ERROR) :=
  ⟨(c6_monping_failure_modes "ObjectNotFound: mon.x" "a").1 (by rfl) (by rfl),
   (c6_monping_failure_modes "garbage" "a").2.1 (by rfl) (by rfl),
   (c6_monping_failure_modes "\x7b\"health\":\x7b\"status\":\"\"\x7d\x7d" "a").2.2
     (.obj [("health", .obj [("status", .str "")])]) (.obj [("status", .str "")])
     (by rfl) (by rfl) (by rfl)⟩

/-- C10: for a monitor-ping invocation where JSON parsing succeeds and the
non-empty health-status string does not split at underscores into exactly
two pieces, the two-element unpacking of `split('_')` raises an uncaught
`ValueError` instead of producing a result. -/
theorem c10_monping_split_unpack_raises (output : String) (monid : String)
    (j h : PyJson) (s : String)
    (hp : json_loads output = some j) (hh : pyIndex j "health" = .ok h)
    (hs : pyIndex h "status" = .ok (.str s)) (hne : s ≠ "")
    (hsplit : (splitUnderscore s.data).length ≠ 2) :
    compose_nagios_output output (some monid) = .exn "ValueError" := by
  simp only [compose_nagios_output, interpretPingOutput, hp, hh, hs]
  unfold interpretHealthField
  simp only [PyJson.truthy, bne_iff_ne, ne_eq, hne, not_false_eq_true, if_true]
  cases hsp : splitUnderscore s.data with
  | nil => simp [hsp]
  | cons a t =>
    cases t with
    | nil => simp [hsp]
    | cons b t2 =>
      cases t2 with
      | nil => exact absurd (by rw [hsp]; rfl) hsplit
      | cons c t3 => simp [hsp]

/-- Witness for C10 at stdout `{"health":{"status":"OK"}}` (no underscore
in the status string). -/
theorem c10_monping_split_unpack_raises_witness :
    compose_nagios_output "\x7b\"health\":\x7b\"status\":\"OK\"\x7d\x7d" (some "a") =
      .exn "ValueError" :=
  c10_monping_split_unpack_raises "\x7b\"health\":\x7b\"status\":\"OK\"\x7d\x7d" "a"
    (.obj [("health", .obj [("status", .str "OK")])]) (.obj [("status", .str "OK")]) "OK"
    (by rfl) (by rfl) (by rfl) (by decide) (by decide)

theorem strNil_append (s : String) : "" ++ s = s := by
  cases s; rfl

/-- C3 counterexample: a common-group invocation whose subprocess exits 0
with empty stdout and stderr "connection refused" yields
(OK, "OK: connection refused"), not (CRITICAL, "ERROR: connection
refused"): `stderr=subprocess.STDOUT` merges stderr into the captured
output, and no `"ERROR: <stderr>"` branch exists. -/
theorem c3_stderr_counterexample :
    main_model ["common", "--status"]
      (.common ⟨"/usr/bin/ceph", some "/etc/ceph/ceph.conf", none, none, none, none⟩
        true false false false)
      (fun _ => true) ⟨true, 0, "", "connection refused"⟩ =
      .result "OK: connection refused" STATUS_OK ∧
    MainOutcome.result "OK: connection refused" STATUS_OK ≠
      .result "ERROR: connection refused" STATUS_ERROR :=
  ⟨by rfl, by decide⟩

/-- C3 amended: stderr is redirected into the captured output, so for a
non-ping invocation a zero-exit run with empty stdout and non-empty stderr
makes the captured text equal to the stderr text; when it contains no
HEALTH marker the result is (OK, "OK: <stderr>"), not (CRITICAL,
"ERROR: <stderr>"). -/
theorem c3_amended_merged_capture (exe : String) (cmd : List String) (p : ProcBehavior)
    (hspawn : p.spawnOk = true) (hexit : p.exitcode = 0) (hout : p.stdout = "")
    (herr : p.stderr ≠ "")
    (h1 : strContains p.stderr "HEALTH_OK" = false)
    (h2 : strContains p.stderr "HEALTH_WARN" = false)
    (h3 : strContains p.stderr "HEALTH_ERR" = false) :
    runPhase exe cmd p none = .result ("OK: " ++ p.stderr) STATUS_OK := by
  unfold runPhase run_ceph_command combinedOutput
  rw [hspawn, hexit, hout, strNil_append]
  simp [herr, compose_nagios_output, h1, h2, h3]

/-- Witness for the amended C3 at the spec's Scenario C streams. -/
theorem c3_amended_merged_capture_witness :
    runPhase "/usr/bin/ceph" ["/usr/bin/ceph", "status"]
      ⟨true, 0, "", "connection refused"⟩ none =
      .result "OK: connection refused" STATUS_OK :=
  c3_amended_merged_capture "/usr/bin/ceph" ["/usr/bin/ceph", "status"]
    ⟨true, 0, "", "connection refused"⟩ rfl rfl rfl (by decide) (by rfl) (by rfl) (by rfl)

/-- C4 counterexample: an osd-group invocation with a missing config file
raises AttributeError instead of failing with the claimed CRITICAL
"No such file - <path>" result. -/
theorem c4_missing_conf_counterexample :
    main_model ["osd", "--stat"]
      (.osd ⟨"/usr/bin/ceph", some "/nonexistent", none, none, none, none⟩ true false)
      (fun _ => false) ⟨true, 0, "", ""⟩ = .exn "AttributeError" ∧
    MainOutcome.exn "AttributeError" ≠ .result "No such file - /nonexistent" STATUS_ERROR :=
  ⟨by rfl, by decide⟩

/-- C4 amended: every common-group invocation whose configured config-file
path does not exist fails with exit code 2 and the message
"ERROR: No such file - <path>" (the claimed text plus an ERROR: prefix),
and the outcome is independent of the subprocess behaviour, i.e. zero
subprocess invocations are consulted; the claim's universal statement over
all invocations fails (see the counterexample, where an osd invocation
raises AttributeError instead). -/
theorem c4_amended_common_graceful (argv : List String) (base : BaseArgs) (conf : String)
    (status health quorum df : Bool) (fs : String → Bool) (p p2 : ProcBehavior)
    (hargv : argv ≠ []) (hconf : base.conf = some conf) (hfs : fs conf = false) :
    main_model argv (.common base status health quorum df) fs p =
      .result ("ERROR: No such file - " ++ conf) STATUS_ERROR ∧
    main_model argv (.common base status health quorum df) fs p =
      main_model argv (.common base status health quorum df) fs p2 := by
  have key : ∀ q : ProcBehavior, main_model argv (.common base status health quorum df) fs q =
      .result ("ERROR: No such file - " ++ conf) STATUS_ERROR := by
    intro q
    cases argv with
    | nil => exact absurd rfl hargv
    | cons a as => simp [main_model, build_common_command, build_base_command, hconf, hfs]
  exact ⟨key p, (key p).trans (key p2).symm⟩

/-- Witness for the amended C4 at a concrete common-group invocation. -/
theorem c4_amended_common_graceful_witness :
    main_model ["common", "--health"]
      (.common ⟨"/usr/bin/ceph", some "/nonexistent", none, none, none, none⟩
        false true false false)
      (fun _ => false) ⟨true, 0, "HEALTH_OK", ""⟩ =
      .result "ERROR: No such file - /nonexistent" STATUS_ERROR :=
  (c4_amended_common_graceful ["common", "--health"]
    ⟨"/usr/bin/ceph", some "/nonexistent", none, none, none, none⟩ "/nonexistent"
    false true false false (fun _ => false) ⟨true, 0, "HEALTH_OK", ""⟩ ⟨true, 0, "HEALTH_OK", ""⟩
    (by decide) rfl rfl).1

/-- C7 counterexample: a non-empty command line without any subject group
prints "No valid command found" and returns 2; it does not print the usage
help text. -/
theorem c7_no_group_counterexample :
    main_model ["-m", "10.0.0.1"] .nogroup (fun _ => true) ⟨true, 0, "", ""⟩ =
      .result "No valid command found" STATUS_ERROR ∧
    MainOutcome.result "No valid command found" STATUS_ERROR ≠ .help STATUS_ERROR :=
  ⟨by rfl, by decide⟩

/-- C7 amended: an empty argument list prints the usage help and returns
exit code 2; a non-empty argument list that selects no subject group
instead prints "No valid command found" and returns exit code 2. -/
theorem c7_amended_help_only_when_empty (parsed : ParsedArgs) (argv : List String)
    (fs : String → Bool) (p : ProcBehavior) :
    main_model [] parsed fs p = .help STATUS_ERROR ∧
    (argv ≠ [] → main_model argv .nogroup fs p =
      .result "No valid command found" STATUS_ERROR) := by
  refine ⟨rfl, fun h => ?_⟩
  unfold main_model
  simp [h]

/-- Witness for the amended C7 at both concrete inputs. -/
theorem c7_amended_help_only_when_empty_witness :
    main_model [] ParsedArgs.nogroup (fun _ => true) ⟨true, 0, "", ""⟩ = .help STATUS_ERROR ∧
    main_model ["-m", "10.0.0.1"] .nogroup (fun _ => true) ⟨true, 0, "", ""⟩ =
      .result "No valid command found" STATUS_ERROR :=
  ⟨(c7_amended_help_only_when_empty ParsedArgs.nogroup [] (fun _ => true) ⟨true, 0, "", ""⟩).1,
   (c7_amended_help_only_when_empty ParsedArgs.nogroup ["-m", "10.0.0.1"] (fun _ => true)
     ⟨true, 0, "", ""⟩).2 (by decide)⟩

/-- C9 counterexample: a mon-group invocation with no selection flag and a
missing config file does not raise AttributeError; `build_mon_command`
passes the boolean `False` through untouched and `main`'s
`if not cephcmd:` check prints the graceful message. -/
theorem c9_mon_noflag_counterexample :
    main_model ["mon"]
      (.mon ⟨"/usr/bin/ceph", some "/nonexistent", none, none, none, none⟩ none false false)
      (fun _ => false) ⟨true, 0, "", ""⟩ =
      .result "ERROR: No such file - /nonexistent" STATUS_ERROR ∧
    MainOutcome.result "ERROR: No such file - /nonexistent" STATUS_ERROR ≠
      .exn "AttributeError" :=
  ⟨by rfl, by decide⟩

/-- C9 amended: with a missing config file, every osd and mds invocation,
and every mon invocation that selects a check (truthy `--monhealth`,
`--monstatus` or `--monstat`), raises AttributeError from calling
`extend`/`append` on the `False` returned by `build_base_command`; a mon
invocation with no selection flag instead returns the `False` to `main`,
which prints the graceful message. -/
theorem c9_amended_subclass_attr_error (argv : List String) (base : BaseArgs) (conf : String)
    (monid : Option String) (monstatus monstat stat tree mdsstat : Bool)
    (fs : String → Bool) (p : ProcBehavior)
    (hargv : argv ≠ []) (hconf : base.conf = some conf) (hfs : fs conf = false) :
    main_model argv (.osd base stat tree) fs p = .exn "AttributeError" ∧
    main_model argv (.mds base mdsstat) fs p = .exn "AttributeError" ∧
    (pyTruthyOptStr monid = true ∨ monstatus = true ∨ monstat = true →
      main_model argv (.mon base monid monstatus monstat) fs p = .exn "AttributeError") := by
  cases argv with
  | nil => exact absurd rfl hargv
  | cons a as =>
    refine ⟨?_, ?_, fun hsel => ?_⟩
    · simp [main_model, build_osd_command, build_base_command, hconf, hfs]
    · simp [main_model, build_mds_command, build_base_command, hconf, hfs]
    · rcases hsel with h | h | h <;>
        simp [main_model, build_mon_command, build_base_command, hconf, hfs, h]

/-- Witness for the amended C9 at concrete osd/mds/mon invocations. -/
theorem c9_amended_subclass_attr_error_witness :
    main_model ["osd", "--tree"]
      (.osd ⟨"/usr/bin/ceph", some "/nonexistent", none, none, none, none⟩ false true)
      (fun _ => false) ⟨true, 0, "", ""⟩ = .exn "AttributeError" ∧
    main_model ["mds", "--mdsstat"]
      (.mds ⟨"/usr/bin/ceph", some "/nonexistent", none, none, none, none⟩ true)
      (fun _ => false) ⟨true, 0, "", ""⟩ = .exn "AttributeError" ∧
    main_model ["mon", "--monstatus"]
      (.mon ⟨"/usr/bin/ceph", some "/nonexistent", none, none, none, none⟩ none true false)
      (fun _ => false) ⟨true, 0, "", ""⟩ = .exn "AttributeError" := by
  have h := c9_amended_subclass_attr_error ["osd", "--tree"]
    ⟨"/usr/bin/ceph", some "/nonexistent", none, none, none, none⟩ "/nonexistent"
    none true false false true true (fun _ => false) ⟨true, 0, "", ""⟩
    (by decide) rfl rfl
  have h2 := c9_amended_subclass_attr_error ["mds", "--mdsstat"]
    ⟨"/usr/bin/ceph", some "/nonexistent", none, none, none, none⟩ "/nonexistent"
    none true false false true true (fun _ => false) ⟨true, 0, "", ""⟩
    (by decide) rfl rfl
  have h3 := c9_amended_subclass_attr_error ["mon", "--monstatus"]
    ⟨"/usr/bin/ceph", some "/nonexistent", none, none, none, none⟩ "/nonexistent"
    none true false false true true (fun _ => false) ⟨true, 0, "", ""⟩
    (by decide) rfl rfl
  exact ⟨h.1, h2.2.1, h3.2.2 (Or.inr (Or.inl rfl))⟩

theorem exGroup_some_rejects {α : Type} [DecidableEq α] (l : List α) (g a : α)
    (ha : a ∈ l) (hne : a ≠ g) : ∃ e, parseExGroup (some g) l = .error e := by
  induction l with
  | nil => cases ha
  | cons f l' ih =>
    by_cases hfg : f = g
    · subst hfg
      rcases List.mem_cons.mp ha with h | h
      · exact absurd h hne
      · simpa [parseExGroup] using ih h
    · exact ⟨"usage error: mutually exclusive arguments", by simp [parseExGroup, hfg]⟩

/-- C8: for every subject group, a command line carrying two distinct
check-selection flags of that group's mutually exclusive group is rejected
at argument-parse time as a usage error (so no namespace is produced and
no subprocess is spawned for such input). -/
theorem c8_exclusive_flags_rejected (g : SubjectGroup) (flags : List (GroupFlag g))
    (a b : GroupFlag g) (ha : a ∈ flags) (hb : b ∈ flags) (hne : a ≠ b) :
    ∃ e, parseExGroup none flags = .error e := by
  cases flags with
  | nil => cases ha
  | cons f l =>
    have step : parseExGroup (none : Option (GroupFlag g)) (f :: l) = parseExGroup (some f) l := by
      simp [parseExGroup]
    rw [step]
    by_cases haf : a = f
    · have hbf : b ≠ f := fun h => hne (haf.trans h.symm)
      have hbl : b ∈ l := by
        rcases List.mem_cons.mp hb with h | h
        · exact absurd h hbf
        · exact h
      exact exGroup_some_rejects l f b hbl hbf
    · have hal : a ∈ l := by
        rcases List.mem_cons.mp ha with h | h
        · exact absurd h haf
        · exact h
      exact exGroup_some_rejects l f a hal haf

/-- Witness for C8: `--status` together with `--health` in the common
group is rejected. -/
theorem c8_exclusive_flags_rejected_witness :
    ∃ e, parseExGroup (none : Option (GroupFlag SubjectGroup.common))
      [CommonFlag.status, CommonFlag.health] = .error e :=
  c8_exclusive_flags_rejected SubjectGroup.common [CommonFlag.status, CommonFlag.health]
    CommonFlag.status CommonFlag.health (List.mem_cons_self _ _)
    (List.mem_cons_of_mem _ (List.mem_cons_self _ _)) (fun h => CommonFlag.noConfusion h)

theorem wsSplitAux_noWs (v : List Char) : ∀ acc, (∀ c ∈ v, c.isWhitespace = false) →
    wsSplitAux acc v = if acc.isEmpty && v.isEmpty then [] else [acc.reverse ++ v] := by
  induction v with
  | nil => intro acc _; simp [wsSplitAux]
  | cons c cs ih =>
    intro acc hv
    have hc : c.isWhitespace = false := hv c (by simp)
    have hcs : ∀ x ∈ cs, x.isWhitespace = false := fun x hx => hv x (by simp [hx])
    simp only [wsSplitAux, hc]
    rw [ih (c :: acc) hcs]
    simp [List.append_assoc]

theorem wsSplitAux_flagword (f : List Char) : ∀ acc (v : List Char),
    (∀ c ∈ f, c.isWhitespace = false) → (∀ c ∈ v, c.isWhitespace = false) → v ≠ [] →
    wsSplitAux acc (f ++ ' ' :: v) =
      if (acc.reverse ++ f).isEmpty then [v] else [acc.reverse ++ f, v] := by
  induction f with
  | nil =>
    intro acc v _ hv hvne
    have h1 : wsSplitAux [] v = [v] := by
      rw [wsSplitAux_noWs v [] hv]
      simp [hvne]
    have hsp : (' ').isWhitespace = true := by decide
    simp only [List.nil_append, wsSplitAux, hsp, if_true, h1]
    cases acc <;> simp
  | cons c f' ih =>
    intro acc v hf hv hvne
    have hc : c.isWhitespace = false := hf c (by simp)
    have hf' : ∀ x ∈ f', x.isWhitespace = false := fun x hx => hf x (by simp [hx])
    simp only [List.cons_append, wsSplitAux, hc, List.append_eq, Bool.false_eq_true, if_false]
    rw [ih (c :: acc) v hf' hv hvne]
    simp [List.append_assoc]

theorem pySplit_flagstr (f : List Char) (flagfmt : String) (hfmt : flagfmt.data = f ++ [' '])
    (hf : ∀ c ∈ f, c.isWhitespace = false) (hfne : f ≠ [])
    (v : String) (hv : goodTok v) :
    pySplit (flagfmt ++ v) = [String.mk f, v] := by
  unfold pySplit
  rw [strData_append, hfmt]
  have hshape : (f ++ [' ']) ++ v.data = f ++ ' ' :: v.data := by simp
  rw [hshape, wsSplitAux_flagword f [] v.data hf hv.2 hv.1]
  have hfe : f.isEmpty = false := by
    cases f with
    | nil => exact absurd rfl hfne
    | cons x xs => rfl
  simp [hfe]

theorem afterConf_good (basecmd : List String) (a : BaseArgs)
    (hm : ∀ m, a.monaddress = some m → goodTok m)
    (hi : ∀ i, a.clientid = some i → goodTok i)
    (hn : ∀ n, a.name = some n → goodTok n)
    (hk : ∀ k, a.keyring = some k → goodTok k) :
    afterConf basecmd a = basecmd ++ optPair "-m" a.monaddress
      ++ optPair "--id" a.clientid ++ optPair "--name" a.name
      ++ optPair "--keyring" a.keyring := by
  have Hm : ∀ m, a.monaddress = some m → pySplit ("-m " ++ m) = ["-m", m] := fun m h =>
    pySplit_flagstr ['-', 'm'] "-m " rfl (by decide) (by decide) m (hm m h)
  have Hi : ∀ i, a.clientid = some i → pySplit ("--id " ++ i) = ["--id", i] := fun i h =>
    pySplit_flagstr ['-', '-', 'i', 'd'] "--id " rfl (by decide) (by decide) i (hi i h)
  have Hn : ∀ n, a.name = some n → pySplit ("--name " ++ n) = ["--name", n] := fun n h =>
    pySplit_flagstr ['-', '-', 'n', 'a', 'm', 'e'] "--name " rfl (by decide) (by decide) n (hn n h)
  have Hk : ∀ k, a.keyring = some k → pySplit ("--keyring " ++ k) = ["--keyring", k] := fun k h =>
    pySplit_flagstr ['-', '-', 'k', 'e', 'y', 'r', 'i', 'n', 'g'] "--keyring " rfl
      (by decide) (by decide) k (hk k h)
  unfold afterConf
  rcases hma : a.monaddress with _ | m <;>
    rcases hia : a.clientid with _ | i <;>
      rcases hna : a.name with _ | n <;>
        rcases hka : a.keyring with _ | k <;>
          simp [hma, hia, hna, hka, Hm, Hi, Hn, Hk, optPair, List.append_assoc]

/-- C5: for every valid CheckConfig (well-formed token values, existing
config file), the built command vector has exactly the order: executable
path; `-c <conf>` if set; `-m <monaddress>` if set; `--id <clientid>` if
set; `--name <name>` if set; `--keyring <keyring>` if set; followed by the
CheckKind-specific trailing token, which for Status is exactly `status`
(so the last token is `status`). -/
theorem c5_common_command_order (a : BaseArgs) (conf : String) (fs : String → Bool)
    (status health quorum df : Bool)
    (hconf : a.conf = some conf) (hfs : fs conf = true) (hc : goodTok conf)
    (hm : ∀ m, a.monaddress = some m → goodTok m)
    (hi : ∀ i, a.clientid = some i → goodTok i)
    (hn : ∀ n, a.name = some n → goodTok n)
    (hk : ∀ k, a.keyring = some k → goodTok k) :
    build_common_command a status health quorum df fs =
      .ok ([a.exe] ++ ["-c", conf] ++ optPair "-m" a.monaddress
        ++ optPair "--id" a.clientid ++ optPair "--name" a.name
        ++ optPair "--keyring" a.keyring
        ++ [if status then "status" else if health then "health"
            else if quorum then "quorum_status" else "df"]) := by
  unfold build_common_command build_base_command
  rw [hconf]
  simp only [hfs, if_true]
  rw [afterConf_good ([a.exe] ++ pySplit ("-c " ++ conf)) a hm hi hn hk]
  rw [pySplit_flagstr ['-', 'c'] "-c " rfl (by decide) (by decide) conf hc]

/-- Witness for C5 at a concrete configuration with CheckKind Status. -/
theorem c5_common_command_order_witness :
    build_common_command
      ⟨"/usr/bin/ceph", some "/etc/ceph/ceph.conf", some "192.168.1.1:6789", some "admin",
        none, some "/etc/ceph/keyring"⟩ true false false false (fun _ => true) =
      .ok ["/usr/bin/ceph", "-c", "/etc/ceph/ceph.conf", "-m", "192.168.1.1:6789",
        "--id", "admin", "--keyring", "/etc/ceph/keyring", "status"] := by
  have h := c5_common_command_order
    ⟨"/usr/bin/ceph", some "/etc/ceph/ceph.conf", some "192.168.1.1:6789", some "admin",
      none, some "/etc/ceph/keyring"⟩ "/etc/ceph/ceph.conf" (fun _ => true)
    true false false false rfl rfl (by decide)
    (fun m hmm => (Option.some.inj hmm) ▸ (by decide : goodTok "192.168.1.1:6789"))
    (fun i hii => (Option.some.inj hii) ▸ (by decide : goodTok "admin"))
    (fun n hnn => Option.noConfusion hnn)
    (fun k hkk => (Option.some.inj hkk) ▸ (by decide : goodTok "/etc/ceph/keyring"))
  exact h
